import Mathlib

/-!
Verification of the PyETWkit core (crates/pyetwkit-core) against its
natural-language specification.  The Rust sources are shallowly embedded:
pure functions become Lean functions, and the stateful session / channel /
statistics code becomes explicit state passing.  Machine integers (u8, u16,
u32, u64) are modelled as `Nat` (none of the verified operations overflow:
they only compare, test bits and count), signed integers as `Int`.
-/

namespace PyEtwKit

/-! ## Event model (crates/pyetwkit-core/src/event.rs) -/

/-- `EventValue` from event.rs: the closed tagged union of ETW property
values.  Floats are carried opaquely (`Float`); none of the verified
conversions inspect them.  `HashMap` payloads become association lists. -/
inductive EventValue where
  | null
  | bool (b : Bool)
  | i8 (n : Int)
  | u8 (n : Nat)
  | i16 (n : Int)
  | u16 (n : Nat)
  | i32 (n : Int)
  | u32 (n : Nat)
  | i64 (n : Int)
  | u64 (n : Nat)
  | f32 (x : Float)
  | f64 (x : Float)
  | string (s : String)
  | binary (bs : List Nat)
  | guid (g : Nat)
  | pointer (p : Nat)
  | fileTime (t : Int)
  | systemTime (t : Int)
  | sid (s : String)
  | array (xs : List EventValue)
  | struct (fields : List (String × EventValue))

/-- `EventValue::as_u32` from event.rs lines 153-164.  The Rust match
guards `I8(n) if *n >= 0` fall through to the wildcard arm when the guard
fails, which the inner `if` reproduces. -/
def EventValue.as_u32 : EventValue → Option Nat
  | .u8 n => some n
  | .u16 n => some n
  | .u32 n => some n
  | .i8 n => if 0 ≤ n then some n.toNat else none
  | .i16 n => if 0 ≤ n then some n.toNat else none
  | .i32 n => if 0 ≤ n then some n.toNat else none
  | _ => none

/-- `EventValue::as_u64` from event.rs lines 166-180. -/
def EventValue.as_u64 : EventValue → Option Nat
  | .u8 n => some n
  | .u16 n => some n
  | .u32 n => some n
  | .u64 n => some n
  | .i8 n => if 0 ≤ n then some n.toNat else none
  | .i16 n => if 0 ≤ n then some n.toNat else none
  | .i32 n => if 0 ≤ n then some n.toNat else none
  | .i64 n => if 0 ≤ n then some n.toNat else none
  | .pointer p => some p
  | _ => none

/-- `EtwEvent` from event.rs: the normalized event record.  UUIDs are
their 128-bit values, the UTC timestamp is Unix nanoseconds. -/
structure EtwEvent where
  provider_id : Nat
  provider_name : Option String
  event_id : Nat
  version : Nat
  opcode : Nat
  level : Nat
  keywords : Nat
  process_id : Nat
  thread_id : Nat
  timestamp : Int
  activity_id : Option Nat
  related_activity_id : Option Nat
  task : Nat
  channel : Nat
  properties : List (String × EventValue)
  raw_data : Option (List Nat)
  stack_trace : Option (List Nat)

/-- `EtwEvent::new` from event.rs lines 78-98.  The wall-clock capture
`Utc::now()` for the default timestamp is abstracted to 0; no verified
property inspects it. -/
def EtwEvent.new (provider_id event_id : Nat) : EtwEvent :=
  { provider_id
    provider_name := none
    event_id
    version := 0
    opcode := 0
    level := 4
    keywords := 0
    process_id := 0
    thread_id := 0
    timestamp := 0
    activity_id := none
    related_activity_id := none
    task := 0
    channel := 0
    properties := []
    raw_data := none
    stack_trace := none }

/-! ## Event filters (crates/pyetwkit-core/src/filter.rs) -/

/-- `EventFilter` from filter.rs.  The `Custom` variant carries the
caller-supplied predicate over (event id, opcode). -/
inductive EventFilter where
  | eventIds (ids : List Nat)
  | opcodes (ops : List Nat)
  | processId (pid : Nat)
  | processName (name : String)
  | excludeEventIds (ids : List Nat)
  | custom (f : Nat → Nat → Bool)

/-- `EventFilter::matches` from filter.rs lines 52-62. -/
def EventFilter.matches : EventFilter → Nat → Nat → Bool
  | .eventIds ids, event_id, _ => ids.contains event_id
  | .opcodes ops, _, opcode => ops.contains opcode
  | .excludeEventIds ids, event_id, _ => !(ids.contains event_id)
  | .custom f, event_id, opcode => f event_id opcode
  | .processId _, _, _ => true
  | .processName _, _, _ => true

/-- Contiguous-sublist test on character lists (the semantics of Rust
`str::contains` with a literal pattern). -/
def char_list_infix (needle hay : List Char) : Bool :=
  match hay with
  | [] => needle.isEmpty
  | _ :: rest => needle.isPrefixOf hay || char_list_infix needle rest

/-- `to_lowercase`-then-`contains` substring test used by the
`ProcessName` arm of `matches_process` (filter.rs line 69). -/
def lower_substring (needle hay : String) : Bool :=
  char_list_infix needle.toLower.toList hay.toLower.toList

/-- `EventFilter::matches_process` from filter.rs lines 64-73. -/
def EventFilter.matches_process : EventFilter → Nat → Option String → Bool
  | .processId filter_pid, pid, _ => filter_pid == pid
  | .processName name, _, process_name =>
      match process_name with
      | some pn => lower_substring name pn
      | none => false
  | _, _, _ => true

/-- `FilterBuilder` from filter.rs lines 76-80. -/
structure FilterBuilder where
  filters : List EventFilter

/-- `FilterBuilder::new` (filter.rs line 83). -/
def FilterBuilder.new : FilterBuilder := ⟨[]⟩

/-- `FilterBuilder::event_ids` (filter.rs lines 89-93). -/
def FilterBuilder.event_ids (b : FilterBuilder) (ids : List Nat) : FilterBuilder :=
  ⟨b.filters ++ [.eventIds ids]⟩

/-- `FilterBuilder::opcodes` (filter.rs lines 96-100). -/
def FilterBuilder.opc_list (b : FilterBuilder) (ops : List Nat) : FilterBuilder :=
  ⟨b.filters ++ [.opcodes ops]⟩

/-- `FilterBuilder::process_id` (filter.rs lines 103-106). -/
def FilterBuilder.process_id (b : FilterBuilder) (pid : Nat) : FilterBuilder :=
  ⟨b.filters ++ [.processId pid]⟩

/-- `FilterBuilder::exclude_event_ids` (filter.rs lines 115-119). -/
def FilterBuilder.exclude_event_ids (b : FilterBuilder) (ids : List Nat) : FilterBuilder :=
  ⟨b.filters ++ [.excludeEventIds ids]⟩

/-- The early-return loop body of `FilterBuilder::matches_all`
(filter.rs lines 134-141), recursion over the filter list. -/
def filters_match_all (fs : List EventFilter) (event_id opcode pid : Nat)
    (process_name : Option String) : Bool :=
  match fs with
  | [] => true
  | f :: rest =>
      if !(f.matches event_id opcode) then false
      else if !(f.matches_process pid process_name) then false
      else filters_match_all rest event_id opcode pid process_name

/-- `FilterBuilder::matches_all` from filter.rs lines 127-143. -/
def FilterBuilder.matches_all (b : FilterBuilder) (event_id opcode pid : Nat)
    (process_name : Option String) : Bool :=
  filters_match_all b.filters event_id opcode pid process_name

/-! ## Provider configuration (crates/pyetwkit-core/src/provider.rs) -/

/-- `TraceLevel` from provider.rs lines 13-26. -/
inductive TraceLevel where
  | always
  | critical
  | error
  | warning
  | info
  | verbose
deriving DecidableEq

/-- The `repr(u8)` value of a `TraceLevel` (the Rust `self.level as u8`). -/
def TraceLevel.as_u8 : TraceLevel → Nat
  | .always => 0
  | .critical => 1
  | .error => 2
  | .warning => 3
  | .info => 4
  | .verbose => 5

/-- `EtwProvider` from provider.rs lines 49-66. -/
structure EtwProvider where
  guid : Nat
  name : Option String
  level : TraceLevel
  keywords_any : Nat
  keywords_all : Nat
  filters : List EventFilter
  enabled : Bool
  capture_stack : Bool

/-- `EtwProvider::by_guid` from provider.rs lines 70-81: the default
provider for a GUID (level Verbose, keywords_any all-ones, keywords_all 0,
no filters). -/
def EtwProvider.by_guid (guid : Nat) : EtwProvider :=
  { guid
    name := none
    level := .verbose
    keywords_any := 0xFFFFFFFFFFFFFFFF
    keywords_all := 0
    filters := []
    enabled := true
    capture_stack := false }

/-- `EtwProvider::with_level` (provider.rs lines 97-100). -/
def EtwProvider.with_level (p : EtwProvider) (level : TraceLevel) : EtwProvider :=
  { p with level }

/-- `EtwProvider::with_keywords_any` (provider.rs lines 103-106). -/
def EtwProvider.with_keywords_any (p : EtwProvider) (keywords : Nat) : EtwProvider :=
  { p with keywords_any := keywords }

/-- `EtwProvider::with_keywords_all` (provider.rs lines 109-112). -/
def EtwProvider.with_keywords_all (p : EtwProvider) (keywords : Nat) : EtwProvider :=
  { p with keywords_all := keywords }

/-- `EtwProvider::with_filter` (provider.rs lines 115-118). -/
def EtwProvider.with_filter (p : EtwProvider) (filter : EventFilter) : EtwProvider :=
  { p with filters := p.filters ++ [filter] }

/-- `EtwProvider::matches_event` from provider.rs lines 127-149, with the
source's early returns as nested conditionals. -/
def EtwProvider.matches_event (p : EtwProvider) (event_id opcode level keywords : Nat) : Bool :=
  if level > p.level.as_u8 then false
  else if p.keywords_any != 0 && (keywords &&& p.keywords_any) == 0 then false
  else if p.keywords_all != 0 && (keywords &&& p.keywords_all) != p.keywords_all then false
  else p.filters.all (fun f => f.matches event_id opcode)

/-- The keywords_any gate of `matches_event` in positive form: the event
passes unless the mask is nonzero and the intersection is empty
(provider.rs line 134). -/
def keywords_any_check (mask keywords : Nat) : Bool :=
  mask == 0 || (keywords &&& mask) != 0

/-- The keywords_all gate of `matches_event` in positive form: the event
passes unless the mask is nonzero and not fully covered
(provider.rs line 137). -/
def keywords_all_check (mask keywords : Nat) : Bool :=
  mask == 0 || (keywords &&& mask) == mask

/-! ## Statistics tracker (crates/pyetwkit-core/src/stats.rs)

The five `AtomicU64` counters become `Nat` fields updated by explicit
state passing; the claims verified here concern the single-threaded
effect of each operation.  The monotonic `Instant` captured at
construction becomes an abstract tick count `start_time`, and
`snapshot` receives the current tick count as an argument. -/

/-- `StatsTracker` from stats.rs lines 53-62. -/
structure StatsTracker where
  events_received : Nat
  events_processed : Nat
  events_lost : Nat
  buffers_lost : Nat
  buffers_read : Nat
  start_time : Nat
  buffer_size_kb : Nat
  buffers_allocated : Nat

/-- `StatsTracker::new` from stats.rs lines 66-77; `now` is the monotonic
tick count at construction (`Instant::now()`). -/
def StatsTracker.new (buffer_size_kb buffers_allocated now : Nat) : StatsTracker :=
  { events_received := 0
    events_processed := 0
    events_lost := 0
    buffers_lost := 0
    buffers_read := 0
    start_time := now
    buffer_size_kb
    buffers_allocated }

/-- `StatsTracker::record_event_received` (stats.rs lines 80-82). -/
def StatsTracker.record_event_received (t : StatsTracker) : StatsTracker :=
  { t with events_received := t.events_received + 1 }

/-- `StatsTracker::record_event_processed` (stats.rs lines 85-87). -/
def StatsTracker.record_event_processed (t : StatsTracker) : StatsTracker :=
  { t with events_processed := t.events_processed + 1 }

/-- `StatsTracker::record_events_lost` (stats.rs lines 90-92). -/
def StatsTracker.record_events_lost (t : StatsTracker) (count : Nat) : StatsTracker :=
  { t with events_lost := t.events_lost + count }

/-- `StatsTracker::record_buffers_lost` (stats.rs lines 95-97). -/
def StatsTracker.record_buffers_lost (t : StatsTracker) (count : Nat) : StatsTracker :=
  { t with buffers_lost := t.buffers_lost + count }

/-- `StatsTracker::record_buffer_read` (stats.rs lines 100-102). -/
def StatsTracker.record_buffer_read (t : StatsTracker) : StatsTracker :=
  { t with buffers_read := t.buffers_read + 1 }

/-- `SessionStats` from stats.rs lines 11-32, restricted to the
integer-valued fields; the elapsed duration is in monotonic ticks.
(The derived float fields `duration_secs`/`events_per_second` and the
drifting wall-clock `start_time` are display-only and not claimed.) -/
structure SessionStats where
  events_received : Nat
  events_processed : Nat
  events_lost : Nat
  buffers_lost : Nat
  buffers_read : Nat
  buffer_size_kb : Nat
  buffers_allocated : Nat
  duration_ticks : Nat

/-- `StatsTracker::snapshot` from stats.rs lines 105-130: `now` is the
monotonic tick count at the call, so `duration_ticks` is
`self.start_time.elapsed()`. -/
def StatsTracker.snapshot (t : StatsTracker) (now : Nat) : SessionStats :=
  { events_received := t.events_received
    events_processed := t.events_processed
    events_lost := t.events_lost
    buffers_lost := t.buffers_lost
    buffers_read := t.buffers_read
    buffer_size_kb := t.buffer_size_kb
    buffers_allocated := t.buffers_allocated
    duration_ticks := now - t.start_time }

/-- `StatsTracker::reset` from stats.rs lines 132-139. -/
def StatsTracker.reset (t : StatsTracker) : StatsTracker :=
  { t with
    events_received := 0
    events_processed := 0
    events_lost := 0
    buffers_lost := 0
    buffers_read := 0 }

/-! ## Errors (crates/pyetwkit-core/src/error.rs) -/

/-- The variants of `EtwError` reached by the verified code paths
(error.rs). -/
inductive EtwError where
  | start_trace_failed (msg : String)
  | session_not_running
  | session_already_running
  | file_not_found (path : String)
  | internal (msg : String)
deriving DecidableEq

/-! ## Session state machine (crates/pyetwkit-core/src/session.rs)

`EtwSession::start`/`stop` guard on the lock-protected `SessionState` and
transition it.  The backend interaction (`UserTrace` construction and the
spawned processing thread) is abstracted to a boolean `backend_ok`
outcome for `trace_builder.start()`; on success the state becomes
`Running` synchronously, and `stop` joins the thread and sets `Stopped`. -/

/-- `SessionState` from session.rs lines 78-83. -/
inductive SessionState where
  | created
  | running
  | stopped
  | error
deriving DecidableEq

/-- `EtwSession::start` (session.rs lines 136-252) as a transition on the
session state: the `AlreadyRunning` guard, then the backend start which
either yields a running trace (state := Running) or fails with
`StartTraceFailed` leaving the state unchanged.  Returns the call's
result paired with the state after the call. -/
def EtwSession.start (backend_ok : Bool) (st : SessionState) :
    Except EtwError Unit × SessionState :=
  if st = .running then (.error .session_already_running, st)
  else if backend_ok then (.ok (), .running)
  else (.error (.start_trace_failed "backend"), st)

/-- `EtwSession::stop` (session.rs lines 255-284) as a transition on the
session state: the `NotRunning` guard, then trace teardown, thread join
and state := Stopped. -/
def EtwSession.stop (st : SessionState) : Except EtwError Unit × SessionState :=
  if st ≠ .running then (.error .session_not_running, st)
  else (.ok (), .stopped)

/-- A sequence of `start()` calls with no intervening `stop()`: returns
the list of per-call results and the final state. -/
def start_seq (backends : List Bool) (st : SessionState) :
    List (Except EtwError Unit) × SessionState :=
  match backends with
  | [] => ([], st)
  | b :: rest =>
      let step := EtwSession.start b st
      let tail := start_seq rest step.snd
      (step.fst :: tail.fst, tail.snd)

/-! ## Event callback and channel discipline (session.rs lines 160-181)

The `crossbeam_channel::bounded` channel between the backend callback and
the consumer: `try_send` succeeds while the queue holds fewer than
`capacity` events, reports `Full` at capacity, and `Disconnected` once
the receiver is dropped. -/

/-- The bounded channel: queued events, capacity, and whether the
receiver side is still alive. -/
structure ChannelState where
  queue : List EtwEvent
  capacity : Nat
  connected : Bool

/-- Outcome of `crossbeam_channel::Sender::try_send`. -/
inductive SendOutcome where
  | ok
  | full
  | disconnected
deriving DecidableEq

/-- `event_tx.try_send(event)`: non-blocking send into the bounded
channel. -/
def try_send (c : ChannelState) (e : EtwEvent) : SendOutcome × ChannelState :=
  if !c.connected then (.disconnected, c)
  else if c.queue.length < c.capacity then (.ok, { c with queue := c.queue ++ [e] })
  else (.full, c)

/-- The `match event_tx.try_send(event)` outcome handling of the event
callback (session.rs lines 170-180): success increments `processed`,
`Full` increments `lost` by 1 and drops the event, `Disconnected`
silently discards it. -/
def send_step (c : ChannelState) (stats : StatsTracker) (e : EtwEvent) :
    ChannelState × StatsTracker :=
  match try_send c e with
  | (.ok, c1) => (c1, stats.record_event_processed)
  | (.full, c1) => (c1, stats.record_events_lost 1)
  | (.disconnected, c1) => (c1, stats)

/-- The channel and statistics state shared between the backend callback
and the consumer. -/
structure CallbackState where
  chan : ChannelState
  stats : StatsTracker

/-- One invocation of the event callback closure (session.rs lines
160-181): `record_event_received`, normalize (the event `e` stands for
the parsed record), then the non-blocking send. -/
def callback_on_event (s : CallbackState) (e : EtwEvent) : CallbackState :=
  let stats1 := s.stats.record_event_received
  let step := send_step s.chan stats1 e
  { chan := step.fst, stats := step.snd }

/-- A run of callback invocations, one per raw record, with no consumer
draining the channel in between. -/
def callback_run (s : CallbackState) (es : List EtwEvent) : CallbackState :=
  es.foldl callback_on_event s

/-- The callback-side state right after `EtwSession::with_config`
(session.rs lines 114-127): empty bounded channel of the configured
capacity with a live receiver, and a fresh `StatsTracker`. -/
def initial_callback_state (capacity : Nat) : CallbackState :=
  { chan := { queue := [], capacity, connected := true }
    stats := StatsTracker.new 64 64 0 }

/-! ## ETL file reader (crates/pyetwkit-core/src/etl_reader.rs)

`EtlReader::new` checks existence of the path; `start` installs a fresh
std `mpsc` channel and spawns a thread that replays the whole file
through the callback, sending every parsed event; once the thread
finishes the sender is dropped, so after the queued events are drained
`recv` reports disconnection.  The filesystem is a predicate
`file_there : String → Bool` and the replay outcome a function
`file_events : String → List EtwEvent`; the channel contents after the
replay thread ran to completion are the file's events. -/

/-- `EtlReader` from etl_reader.rs lines 19-26.  `receiver` is `none`
before `start` and `some remaining` afterwards (`remaining` = events not
yet consumed; `some []` = started and exhausted, sender dropped).
`thread_handle` records whether a processing thread was spawned. -/
structure EtlReader where
  path : String
  receiver : Option (List EtwEvent)
  thread_handle : Option Unit

/-- `EtlReader::new` from etl_reader.rs lines 29-43: fails with
`FileNotFound` when the path does not exist, otherwise returns a reader
with no receiver and no thread. -/
def EtlReader.new (file_there : String → Bool) (path : String) :
    Except EtwError EtlReader :=
  if !(file_there path) then .error (.file_not_found path)
  else .ok { path, receiver := none, thread_handle := none }

/-- `EtlReader::start` from etl_reader.rs lines 45-70: unconditionally
creates a fresh channel, spawns the replay thread and returns `Ok(())`.
The replay thread runs the file to exhaustion, so the channel holds the
file's events. -/
def EtlReader.start (file_events : String → List EtwEvent) (r : EtlReader) :
    Except EtwError Unit × EtlReader :=
  (.ok (), { r with receiver := some (file_events r.path), thread_handle := some () })

/-- `EtlReader::next_event` (etl_reader.rs lines 73-75): `recv` returns
the next queued event, or `None` once the channel is empty and the
replay thread's sender has been dropped (and `None` before `start`,
since there is no receiver). -/
def EtlReader.next_event (r : EtlReader) : Option EtwEvent × EtlReader :=
  match r.receiver with
  | none => (none, r)
  | some [] => (none, r)
  | some (e :: rest) => (some e, { r with receiver := some rest })

/-- `impl Iterator for EtlReader` (etl_reader.rs lines 104-116): start
lazily when no receiver is installed, then `next_event`. -/
def EtlReader.iter_next (file_events : String → List EtwEvent) (r : EtlReader) :
    Option EtwEvent × EtlReader :=
  match r.receiver with
  | none => ((EtlReader.start file_events r).snd).next_event
  | some _ => r.next_event

/-! ## Example values used by concrete parts of the claims -/

/-- The builder of the spec's example: `EventIds({1,2,3})` combined with
`ProcessId(1000)`. -/
def example_builder : FilterBuilder :=
  (FilterBuilder.new.event_ids [1, 2, 3]).process_id 1000

/-- A provider with default keyword masks and level Warning, as in the
repository's `test_matches_event_level`. -/
def warning_provider : EtwProvider :=
  (EtwProvider.by_guid 0).with_level .warning

/-- A provider with `keywords_any = 0x0F`, as in the repository's
`test_matches_event_keywords`. -/
def any_0f_provider : EtwProvider :=
  (EtwProvider.by_guid 0).with_keywords_any 0x0F

/-- A one-event replay file for the reader examples. -/
def demo_file_events : String → List EtwEvent := fun _ => [EtwEvent.new 0 1]

/-- A reader that has been started and fully drained: the channel is
empty and the replay thread has finished (sender dropped). -/
def exhausted_demo_reader : EtlReader :=
  { path := "demo.etl", receiver := some [], thread_handle := some () }

/-! ## Specification-side definitions (for refinement-style claims) -/

/-- Modelled from the spec: "`as_u64` succeeds only for non-negative
integer-like and Pointer kinds" — the kinds for which the amended claim
says `as_u64` returns a value. -/
def spec_u64_convertible : EventValue → Bool
  | .u8 _ | .u16 _ | .u32 _ | .u64 _ | .pointer _ => true
  | .i8 n | .i16 n | .i32 n | .i64 n => decide (0 ≤ n)
  | _ => false

/-- Modelled from the amended claim: the kinds for which `as_u32`
returns a value — 32-bit-or-narrower unsigned, or non-negative
32-bit-or-narrower signed (64-bit sources and Pointer excluded). -/
def spec_u32_convertible : EventValue → Bool
  | .u8 _ | .u16 _ | .u32 _ => true
  | .i8 n | .i16 n | .i32 n => decide (0 ≤ n)
  | _ => false

/-! ## Theorems -/

/-- Claim C6: `EventFilter::matches` behaves per variant — `EventIds`
tests membership of the event id, `Opcodes` of the opcode,
`ExcludeEventIds` negates membership, `Custom` invokes the predicate,
and `ProcessId`/`ProcessName` always return true; with the spec's
concrete examples for `EventIds({1,2,3})` and `ExcludeEventIds({100})`. -/
theorem c6_event_filter_matches :
    (∀ ids eid op, (EventFilter.eventIds ids).matches eid op = true ↔ eid ∈ ids)
    ∧ (∀ ops eid op, (EventFilter.opcodes ops).matches eid op = true ↔ op ∈ ops)
    ∧ (∀ ids eid op, (EventFilter.excludeEventIds ids).matches eid op = true ↔ eid ∉ ids)
    ∧ (∀ f eid op, (EventFilter.custom f).matches eid op = f eid op)
    ∧ (∀ pid eid op, (EventFilter.processId pid).matches eid op = true)
    ∧ (∀ s eid op, (EventFilter.processName s).matches eid op = true)
    ∧ (∀ op, (EventFilter.eventIds [1, 2, 3]).matches 2 op = true)
    ∧ (∀ op, (EventFilter.eventIds [1, 2, 3]).matches 4 op = false)
    ∧ (∀ op, (EventFilter.excludeEventIds [100]).matches 100 op = false)
    ∧ (∀ n op, n ≠ 100 → (EventFilter.excludeEventIds [100]).matches n op = true) := by
  refine ⟨?_, ?_, ?_, ?_, ?_, ?_, ?_, ?_, ?_, ?_⟩
  · intro ids eid op; simp [EventFilter.matches]
  · intro ops eid op; simp [EventFilter.matches]
  · intro ids eid op; simp [EventFilter.matches]
  · intro f eid op; rfl
  · intro pid eid op; rfl
  · intro s eid op; rfl
  · intro op; rfl
  · intro op; rfl
  · intro op; rfl
  · intro n op h; simp [EventFilter.matches, h]

/-- Witness for C6: the hypothesis-bearing part at `n = 4`. -/
theorem c6_witness :
    (4 ≠ 100) ∧ (EventFilter.excludeEventIds [100]).matches 4 0 = true :=
  ⟨by decide,
   c6_event_filter_matches.2.2.2.2.2.2.2.2.2 4 0 (by decide)⟩

/-- The early-return loop of `FilterBuilder::matches_all` equals the
conjunction over the filter list. -/
theorem filters_match_all_eq_all (fs : List EventFilter) (eid op pid : Nat)
    (pn : Option String) :
    filters_match_all fs eid op pid pn
      = fs.all (fun f => f.matches eid op && f.matches_process pid pn) := by
  induction fs with
  | nil => rfl
  | cons f rest ih =>
      simp only [filters_match_all, List.all_cons, ← ih]
      cases h1 : f.matches eid op <;> cases h2 : f.matches_process pid pn <;> simp

/-- Claim C7: `FilterBuilder::matches_all(id, opcode, pid, name)` is
true iff every contained filter's `matches` and `matches_process` both
hold; with the spec example `EventIds({1,2,3})` + `ProcessId(1000)`. -/
theorem c7_filter_builder_matches_all :
    (∀ (b : FilterBuilder) eid op pid pn,
        b.matches_all eid op pid pn = true ↔
          ∀ f ∈ b.filters, f.matches eid op = true ∧ f.matches_process pid pn = true)
    ∧ (∀ op pn, example_builder.matches_all 1 op 1000 pn = true)
    ∧ (∀ op pn, example_builder.matches_all 1 op 2000 pn = false)
    ∧ (∀ op pn, example_builder.matches_all 4 op 1000 pn = false) := by
  refine ⟨?_, ?_, ?_, ?_⟩
  · intro b eid op pid pn
    rw [FilterBuilder.matches_all, filters_match_all_eq_all]
    simp [List.all_eq_true]
  · intro op pn; rfl
  · intro op pn; rfl
  · intro op pn; rfl

/-- Claim C8: `StatsTracker::reset` zeroes exactly the five counters
(received, processed, lost, buffers_lost, buffers_read); start time,
buffer size and buffer count are unchanged, so a snapshot after reset
still reports the elapsed duration since construction. -/
theorem c8_stats_reset (t : StatsTracker) (now : Nat) :
    t.reset.events_received = 0
    ∧ t.reset.events_processed = 0
    ∧ t.reset.events_lost = 0
    ∧ t.reset.buffers_lost = 0
    ∧ t.reset.buffers_read = 0
    ∧ t.reset.start_time = t.start_time
    ∧ t.reset.buffer_size_kb = t.buffer_size_kb
    ∧ t.reset.buffers_allocated = t.buffers_allocated
    ∧ (t.reset.snapshot now).duration_ticks = (t.snapshot now).duration_ticks
    ∧ (t.reset.snapshot now).duration_ticks = now - t.start_time :=
  ⟨rfl, rfl, rfl, rfl, rfl, rfl, rfl, rfl, rfl, rfl⟩

/-- Claim C9: `EtlReader::new` fails with `FileNotFound` exactly when
the path does not exist, and on an existing path returns a reader with
no channel installed and no thread spawned. -/
theorem c9_etl_reader_new (file_there : String → Bool) (path : String) :
    (file_there path = false →
        EtlReader.new file_there path = .error (.file_not_found path))
    ∧ (file_there path = true →
        EtlReader.new file_there path =
          .ok { path := path, receiver := none, thread_handle := none }) := by
  constructor
  · intro h; simp [EtlReader.new, h]
  · intro h; simp [EtlReader.new, h]

/-- Witness for C9 on a two-file filesystem: construction fails on the
missing path and succeeds, without a thread, on the present one. -/
theorem c9_witness :
    (EtlReader.new (fun p => p == "trace.etl") "missing.etl"
        = .error (.file_not_found "missing.etl"))
    ∧ (EtlReader.new (fun p => p == "trace.etl") "trace.etl"
        = .ok { path := "trace.etl", receiver := none, thread_handle := none }) :=
  ⟨(c9_etl_reader_new (fun p => p == "trace.etl") "missing.etl").1 (by decide),
   (c9_etl_reader_new (fun p => p == "trace.etl") "trace.etl").2 (by decide)⟩

/-- Counterexample to claim C10: a reader created on an existing file,
started, and drained to exhaustion still accepts `start()` — the second
`start` returns `Ok` (and replays) instead of failing, so the reader is
not single-pass at the API level and its state is not consumed. -/
theorem c10_counterexample :
    (EtlReader.new (fun p => p == "demo.etl") "demo.etl"
        = .ok { path := "demo.etl", receiver := none, thread_handle := none })
    ∧ (EtlReader.start demo_file_events
          { path := "demo.etl", receiver := none, thread_handle := none }
        = (.ok (), { path := "demo.etl", receiver := some [EtwEvent.new 0 1],
                     thread_handle := some () }))
    ∧ ((EtlReader.next_event
          { path := "demo.etl", receiver := some [EtwEvent.new 0 1],
            thread_handle := some () }).fst = some (EtwEvent.new 0 1))
    ∧ (EtlReader.next_event exhausted_demo_reader = (none, exhausted_demo_reader))
    ∧ ((EtlReader.start demo_file_events exhausted_demo_reader).fst = .ok ()) :=
  ⟨rfl, rfl, rfl, rfl, rfl⟩

/-- Amended claim C10: `EtlReader::start` is unguarded — it always
succeeds, installing a fresh channel that replays the file's events, so
starting again after exhaustion silently replays rather than failing;
and iterating an exhausted reader silently yields nothing (it does not
restart).  The state is never consumed or reset. -/
theorem c10_amended :
    (∀ (file_events : String → List EtwEvent) (r : EtlReader),
        EtlReader.start file_events r
          = (.ok (), { r with receiver := some (file_events r.path),
                              thread_handle := some () }))
    ∧ (∀ (file_events : String → List EtwEvent) (r : EtlReader),
        r.receiver = some [] →
          EtlReader.iter_next file_events r = (none, r)) := by
  constructor
  · intro file_events r; rfl
  · intro file_events r h
    simp [EtlReader.iter_next, EtlReader.next_event, h]

/-- Witness for the amended C10 at a concrete exhausted reader. -/
theorem c10_amended_witness :
    (exhausted_demo_reader.receiver = some [])
    ∧ EtlReader.iter_next demo_file_events exhausted_demo_reader
        = (none, exhausted_demo_reader) :=
  ⟨rfl, c10_amended.2 demo_file_events exhausted_demo_reader rfl⟩

/-- Claim C3: `matches_event(id, opcode, level, keywords)` is the
conjunction of the level gate (level ≤ provider level), the two keyword
gates as the code implements them, and all attached filters; and for a
provider of level Warning(3) whose keyword gates pass (event keywords 1
against the default masks) and with no filters, events of level 0..3
match while levels 4 and 5 are rejected. -/
theorem c3_matches_event_decomposition :
    (∀ (p : EtwProvider) eid op lvl kw,
        p.matches_event eid op lvl kw
          = (decide (lvl ≤ p.level.as_u8)
              && keywords_any_check p.keywords_any kw
              && keywords_all_check p.keywords_all kw
              && p.filters.all (fun f => f.matches eid op)))
    ∧ (warning_provider.matches_event 1 0 0 1 = true)
    ∧ (warning_provider.matches_event 1 0 1 1 = true)
    ∧ (warning_provider.matches_event 1 0 2 1 = true)
    ∧ (warning_provider.matches_event 1 0 3 1 = true)
    ∧ (warning_provider.matches_event 1 0 4 1 = false)
    ∧ (warning_provider.matches_event 1 0 5 1 = false) := by
  refine ⟨?_, by decide, by decide, by decide, by decide, by decide, by decide⟩
  intro p eid op lvl kw
  simp only [EtwProvider.matches_event, keywords_any_check, keywords_all_check]
  by_cases h1 : lvl > p.level.as_u8
  · simp [h1, Nat.not_le.mpr h1]
  · simp only [if_neg h1, decide_eq_true (Nat.not_lt.mp h1), Bool.true_and]
    by_cases h2 : p.keywords_any = 0
    · simp only [h2]
      by_cases h3 : p.keywords_all = 0
      · simp [h3]
      · by_cases h4 : kw &&& p.keywords_all = p.keywords_all <;> simp [h3, h4]
    · by_cases h5 : kw &&& p.keywords_any = 0
      · simp [h2, h5]
      · by_cases h3 : p.keywords_all = 0
        · simp [h2, h3, h5]
        · by_cases h4 : kw &&& p.keywords_all = p.keywords_all <;>
            simp [h2, h3, h4, h5]

/-- Claim C4 names the intended sentinel semantics of the keyword gates;
the code disagrees on the all-ones sentinel.  This theorem records the
code's actual behaviour: the default provider (keywords_any =
0xFFFFFFFFFFFFFFFF) rejects an event with keywords 0 even at a passing
level — the very call the repository's own `test_matches_event_level`
asserts to be true — because the code treats 0, not all-ones, as the
"no restriction" sentinel of keywords_any; the keywords_all = 0 sentinel
and the keywords_any = 0x0F example behave as claimed. -/
theorem c4_keywords_sentinel_behaviour :
    (warning_provider.matches_event 1 0 1 0 = false)
    ∧ (warning_provider.keywords_any = 0xFFFFFFFFFFFFFFFF)
    ∧ (keywords_any_check 0xFFFFFFFFFFFFFFFF 0 = false)
    ∧ (∀ kw, keywords_any_check 0 kw = true)
    ∧ (∀ kw, keywords_all_check 0 kw = true)
    ∧ (any_0f_provider.matches_event 1 0 0 0x01 = true)
    ∧ (any_0f_provider.matches_event 1 0 0 0x08 = true)
    ∧ (any_0f_provider.matches_event 1 0 0 0x10 = false) :=
  ⟨by decide, by decide, by decide, fun kw => rfl, fun kw => rfl,
   by decide, by decide, by decide⟩

/-- Counterexample to claim C5 as stated: `as_u32` on a `Pointer` (and
on a non-negative 64-bit integer) returns `None`, though both are
"non-negative integer-like or Pointer" kinds. -/
theorem c5_counterexample :
    EventValue.as_u32 (.pointer 5) = none
    ∧ EventValue.as_u32 (.u64 7) = none
    ∧ EventValue.as_u32 (.i64 7) = none :=
  ⟨rfl, rfl, rfl⟩

/-- Amended claim C5: `as_u64` returns a value exactly for non-negative
integer-like kinds and Pointer; `as_u32` returns a value exactly for
32-bit-or-narrower unsigned kinds and non-negative 32-bit-or-narrower
signed kinds (64-bit sources and Pointer always yield None from
`as_u32`); narrowing any negative signed source to an unsigned target
returns None. -/
theorem c5_amended_conversion_contract :
    (∀ v, (EventValue.as_u64 v).isSome = spec_u64_convertible v)
    ∧ (∀ v, (EventValue.as_u32 v).isSome = spec_u32_convertible v)
    ∧ (∀ n : Int, n < 0 →
        (EventValue.i8 n).as_u32 = none
        ∧ (EventValue.i16 n).as_u32 = none
        ∧ (EventValue.i32 n).as_u32 = none
        ∧ (EventValue.i8 n).as_u64 = none
        ∧ (EventValue.i16 n).as_u64 = none
        ∧ (EventValue.i32 n).as_u64 = none
        ∧ (EventValue.i64 n).as_u64 = none) := by
  refine ⟨?_, ?_, ?_⟩
  · intro v
    cases v <;> simp [EventValue.as_u64, spec_u64_convertible] <;>
      rename_i n <;> by_cases h : 0 ≤ n <;> simp [h]
  · intro v
    cases v <;> simp [EventValue.as_u32, spec_u32_convertible] <;>
      rename_i n <;> by_cases h : 0 ≤ n <;> simp [h]
  · intro n h
    have h2 : ¬(0 ≤ n) := by omega
    refine ⟨?_, ?_, ?_, ?_, ?_, ?_, ?_⟩ <;>
      simp [EventValue.as_u32, EventValue.as_u64, h2]

/-- A `start()` call that returned `Ok` left the session Running. -/
theorem start_ok_state (b : Bool) (st : SessionState) :
    (EtwSession.start b st).fst = .ok () → (EtwSession.start b st).snd = .running := by
  intro h
  by_cases h1 : st = .running
  · simp [EtwSession.start, h1] at h
  · cases b <;> simp_all [EtwSession.start]

/-- From a Running session, every `start()` in a sequence returns
`AlreadyRunning` and the state stays Running. -/
theorem start_seq_from_running (bs : List Bool) :
    ∀ st, st = SessionState.running →
      (start_seq bs st).fst
          = List.replicate bs.length (.error .session_already_running)
      ∧ (start_seq bs st).snd = .running := by
  induction bs with
  | nil => intro st h; exact ⟨rfl, h⟩
  | cons b rest ih =>
      intro st h
      subst h
      have hstep : EtwSession.start b .running
          = (.error .session_already_running, .running) := by
        simp [EtwSession.start]
      obtain ⟨h1, h2⟩ := ih .running rfl
      constructor
      · simp [start_seq, hstep, h1, List.replicate_succ]
      · simp [start_seq, hstep, h2]

/-- Claim C2: `start()` returns `AlreadyRunning` iff the state is
Running — so after one successful `start()`, every further `start()`
without an intervening `stop()` returns `AlreadyRunning` — and `stop()`
returns `NotRunning` iff the state is not Running, in particular on a
Created session, a Stopped session, and on the second of two
consecutive `stop()` calls. -/
theorem c2_lifecycle_guards :
    (∀ (b : Bool) (st : SessionState),
        (EtwSession.start b st).fst = .error .session_already_running ↔ st = .running)
    ∧ (∀ st : SessionState,
        (EtwSession.stop st).fst = .error .session_not_running ↔ st ≠ .running)
    ∧ (∀ (bs : List Bool) (b : Bool) (st : SessionState),
        (EtwSession.start b st).fst = .ok () →
          (start_seq bs (EtwSession.start b st).snd).fst
            = List.replicate bs.length (.error .session_already_running))
    ∧ ((EtwSession.stop .created).fst = .error .session_not_running)
    ∧ ((EtwSession.stop .stopped).fst = .error .session_not_running)
    ∧ ((EtwSession.stop ((EtwSession.stop .running).snd)).fst
        = .error .session_not_running) := by
  refine ⟨?_, ?_, ?_, rfl, rfl, rfl⟩
  · intro b st
    by_cases h : st = .running
    · simp [EtwSession.start, h]
    · cases b <;> simp [EtwSession.start, h]
  · intro st
    by_cases h : st = .running <;> simp [EtwSession.stop, h]
  · intro bs b st h
    rw [start_ok_state b st h]
    exact (start_seq_from_running bs .running rfl).1

/-- Witness for C2: from Created, the first `start()` succeeds and the
next two return `AlreadyRunning`. -/
theorem c2_witness :
    ((EtwSession.start true .created).fst = .ok ())
    ∧ ((start_seq [true, true] (EtwSession.start true .created).snd).fst
        = List.replicate 2 (.error .session_already_running)) :=
  ⟨rfl, c2_lifecycle_guards.2.2.1 [true, true] true .created rfl⟩

/-- Effect of a run of callback invocations on a connected channel:
`received` counts every invocation, `processed` the sends that found
room, `lost` the rest, and the queue extends by exactly the first
events that fit. -/
theorem callback_run_connected_spec (es : List EtwEvent) :
    ∀ (s : CallbackState), s.chan.connected = true →
      ((callback_run s es).stats.events_processed
          = s.stats.events_processed
              + min es.length (s.chan.capacity - s.chan.queue.length))
      ∧ ((callback_run s es).stats.events_lost
          = s.stats.events_lost
              + (es.length - (s.chan.capacity - s.chan.queue.length)))
      ∧ ((callback_run s es).stats.events_received
          = s.stats.events_received + es.length)
      ∧ ((callback_run s es).chan.queue
          = s.chan.queue ++ es.take (s.chan.capacity - s.chan.queue.length)) := by
  induction es with
  | nil =>
      intro s h
      refine ⟨?_, ?_, ?_, ?_⟩ <;> simp [callback_run]
  | cons e rest ih =>
      intro s h
      have hrun : callback_run s (e :: rest)
          = callback_run (callback_on_event s e) rest := rfl
      by_cases hlt : s.chan.queue.length < s.chan.capacity
      · have hstep : callback_on_event s e
            = { chan := { queue := s.chan.queue ++ [e],
                          capacity := s.chan.capacity,
                          connected := s.chan.connected },
                stats := s.stats.record_event_received.record_event_processed } := by
          simp [callback_on_event, send_step, try_send, h, hlt]
        obtain ⟨p1, p2, p3, p4⟩ :=
          ih (callback_on_event s e) (by rw [hstep]; exact h)
        refine ⟨?_, ?_, ?_, ?_⟩
        · rw [hrun, p1, hstep]
          simp only [StatsTracker.record_event_received,
            StatsTracker.record_event_processed, List.length_append,
            List.length_cons, List.length_nil]
          omega
        · rw [hrun, p2, hstep]
          simp only [StatsTracker.record_event_received,
            StatsTracker.record_event_processed, List.length_append,
            List.length_cons, List.length_nil]
          omega
        · rw [hrun, p3, hstep]
          simp only [StatsTracker.record_event_received,
            StatsTracker.record_event_processed, List.length_cons]
          omega
        · rw [hrun, p4, hstep]
          simp only [List.length_append, List.length_cons, List.length_nil]
          obtain ⟨m, hm⟩ : ∃ m, s.chan.capacity - s.chan.queue.length = m + 1 :=
            ⟨s.chan.capacity - s.chan.queue.length - 1, by omega⟩
          have hm2 : s.chan.capacity - (s.chan.queue.length + (0 + 1)) = m := by
            omega
          rw [hm, hm2, List.take_succ_cons]
          simp
      · have hstep : callback_on_event s e
            = { chan := s.chan,
                stats := s.stats.record_event_received.record_events_lost 1 } := by
          simp [callback_on_event, send_step, try_send, h, hlt]
        obtain ⟨p1, p2, p3, p4⟩ :=
          ih (callback_on_event s e) (by rw [hstep]; exact h)
        have hcap : s.chan.capacity - s.chan.queue.length = 0 := by omega
        refine ⟨?_, ?_, ?_, ?_⟩
        · rw [hrun, p1, hstep]
          simp only [StatsTracker.record_event_received,
            StatsTracker.record_events_lost, List.length_cons]
          omega
        · rw [hrun, p2, hstep]
          simp only [StatsTracker.record_event_received,
            StatsTracker.record_events_lost, List.length_cons]
          omega
        · rw [hrun, p3, hstep]
          simp only [StatsTracker.record_event_received,
            StatsTracker.record_events_lost, List.length_cons]
          omega
        · rw [hrun, p4, hstep, hcap]
          simp

/-- Claim C1: with a bounded channel of capacity N and no consumer
draining, a run of N + k (k > 0) callback invocations queues exactly the
first N events and counts them processed, counts the remaining k as
lost (dropped, never queued), so afterwards processed = N and lost = k;
and the send outcome on a disconnected channel changes neither the
counters nor the queue. -/
theorem c1_bounded_channel_backpressure :
    (∀ (capacity k : Nat) (es : List EtwEvent),
        0 < k → es.length = capacity + k →
        ((callback_run (initial_callback_state capacity) es).stats.events_processed
            = capacity)
        ∧ ((callback_run (initial_callback_state capacity) es).stats.events_lost = k)
        ∧ ((callback_run (initial_callback_state capacity) es).stats.events_received
            = capacity + k)
        ∧ ((callback_run (initial_callback_state capacity) es).chan.queue
            = es.take capacity))
    ∧ (∀ (c : ChannelState) (stats : StatsTracker) (e : EtwEvent),
        c.connected = false → send_step c stats e = (c, stats)) := by
  constructor
  · intro capacity k es hk hlen
    obtain ⟨p1, p2, p3, p4⟩ :=
      callback_run_connected_spec es (initial_callback_state capacity) rfl
    refine ⟨?_, ?_, ?_, ?_⟩
    · rw [p1]
      simp only [initial_callback_state, StatsTracker.new, List.length_nil,
        Nat.sub_zero]
      omega
    · rw [p2]
      simp only [initial_callback_state, StatsTracker.new, List.length_nil,
        Nat.sub_zero]
      omega
    · rw [p3]
      simp only [initial_callback_state, StatsTracker.new]
      omega
    · rw [p4]
      simp [initial_callback_state]
  · intro c stats e h
    simp [send_step, try_send, h]

/-- Witness for C1 at capacity 2 with 3 sends, and for the disconnected
send at a concrete channel. -/
theorem c1_witness :
    (0 < 1)
    ∧ ([EtwEvent.new 0 1, EtwEvent.new 0 2, EtwEvent.new 0 3].length = 2 + 1)
    ∧ (((callback_run (initial_callback_state 2)
          [EtwEvent.new 0 1, EtwEvent.new 0 2, EtwEvent.new 0 3]).stats.events_processed
            = 2)
        ∧ ((callback_run (initial_callback_state 2)
          [EtwEvent.new 0 1, EtwEvent.new 0 2, EtwEvent.new 0 3]).stats.events_lost = 1)
        ∧ ((callback_run (initial_callback_state 2)
          [EtwEvent.new 0 1, EtwEvent.new 0 2, EtwEvent.new 0 3]).stats.events_received
            = 2 + 1)
        ∧ ((callback_run (initial_callback_state 2)
          [EtwEvent.new 0 1, EtwEvent.new 0 2, EtwEvent.new 0 3]).chan.queue
            = [EtwEvent.new 0 1, EtwEvent.new 0 2, EtwEvent.new 0 3].take 2))
    ∧ (({ queue := [], capacity := 5, connected := false } : ChannelState).connected
        = false)
    ∧ (send_step { queue := [], capacity := 5, connected := false }
          (StatsTracker.new 64 64 0) (EtwEvent.new 0 1)
        = ({ queue := [], capacity := 5, connected := false },
           StatsTracker.new 64 64 0)) :=
  ⟨by decide, rfl,
   c1_bounded_channel_backpressure.1 2 1
     [EtwEvent.new 0 1, EtwEvent.new 0 2, EtwEvent.new 0 3] (by decide) rfl,
   rfl,
   c1_bounded_channel_backpressure.2
     { queue := [], capacity := 5, connected := false }
     (StatsTracker.new 64 64 0) (EtwEvent.new 0 1) rfl⟩

/-- Witness for the amended C5 at `n = -1`. -/
theorem c5_amended_witness :
    ((-1 : Int) < 0)
    ∧ ((EventValue.i8 (-1)).as_u32 = none
        ∧ (EventValue.i16 (-1)).as_u32 = none
        ∧ (EventValue.i32 (-1)).as_u32 = none
        ∧ (EventValue.i8 (-1)).as_u64 = none
        ∧ (EventValue.i16 (-1)).as_u64 = none
        ∧ (EventValue.i32 (-1)).as_u64 = none
        ∧ (EventValue.i64 (-1)).as_u64 = none) :=
  ⟨by decide, c5_amended_conversion_contract.2.2 (-1) (by decide)⟩

end PyEtwKit
